import Mathlib

/-!
Shallow embedding of the SINTA-Scraper repository (src/scraper.py) and
verification of its specification.

The Python program is a sequential scraping pipeline built around the class
`WebScraper`.  We embed the pure core of each method as a Lean function:

* `get_pagination`        embeds `WebScraper.get_pagination`;
* `extract_journal_data`  embeds `WebScraper.extract_journal_data`;
* `fetch_page`            embeds the error-wrapping of `WebScraper.fetch_page`;
* `runScraper`            embeds the orchestration loop of `WebScraper.run`,
  with the observable side effects (HTTP GET requests, `time.sleep(2)` calls,
  CSV export, visualization, console print) recorded as an event trace;
* `to_csv`, `output_dir`, `csv_filename`, `log_filename`, `pipelineCsv`
  embed the file naming of `__init__` and the tabular export of `save_to_csv`.

HTML pages (BeautifulSoup objects) are modelled by the `Soup` structure, which
records exactly the element sets the scraper queries with `find_all`.  The
network is modelled by the `Site` structure mapping each request to either a
parsed page or a transport error.  `SystemExit` exceptions raised by the
program are modelled by the `Fatal` type carrying the exit message.
-/

deriving instance DecidableEq for Except

namespace SintaScraper

/-- Strip leading and trailing whitespace from a character list. -/
def stripChars (l : List Char) : List Char :=
  ((l.dropWhile Char.isWhitespace).reverse.dropWhile Char.isWhitespace).reverse

/-- Python `str.strip()` (leading/trailing whitespace removal), as used on
element text in `extract_journal_data`. -/
def pyStrip (s : String) : String := String.mk (stripChars s.data)

/-- Worker for `pySplit`: accumulate the current token (reversed) and emit it
at each whitespace run boundary, discarding empty tokens. -/
def splitWsAux : List Char → List Char → List String
  | [], cur => if cur.isEmpty then [] else [String.mk cur.reverse]
  | c :: cs, cur =>
    if c.isWhitespace then
      (if cur.isEmpty then [] else [String.mk cur.reverse]) ++ splitWsAux cs []
    else splitWsAux cs (c :: cur)

/-- Python `str.split()` with no argument: split on runs of whitespace,
discarding empty fragments.  Used on the pagination text in
`get_pagination` (`num_pagination_text.split()`). -/
def pySplit (s : String) : List String := splitWsAux s.data []

/-- Decimal value of a digit-character list. -/
def digitsToNat (l : List Char) : Nat :=
  l.foldl (fun acc c => acc * 10 + (c.toNat - 48)) 0

/-- Python `int(s)` on a string: optional surrounding whitespace, an optional
sign, then one or more decimal digits; any other shape raises `ValueError`
(modelled as `none`).  Used in `get_pagination` (`int(num_split[3])`). -/
def pyInt (s : String) : Option Int :=
  match stripChars s.data with
  | [] => none
  | c :: cs =>
    let signed : Bool × List Char :=
      if c = '-' then (true, cs) else if c = '+' then (false, cs) else (false, c :: cs)
    match signed with
    | (neg, digits) =>
      if digits.isEmpty then none
      else if digits.all Char.isDigit then
        some (if neg then -(digitsToNat digits : Int) else (digitsToNat digits : Int))
      else none

/-- An `<a>` tag as seen by the scraper: only its `href` attribute matters.
`href = none` models an anchor without an `href` attribute, for which the
subscript `tag['href']` raises `KeyError`. -/
structure Anchor where
  href : Option String
deriving DecidableEq, Repr

/-- A name block: one `div.affil-name.mb-3` element.  `text` is its `.text`
content; `anchors` lists the `<a>` descendants in document order, so that
`find('a')` returns the head of the list (or `None` when empty). -/
structure NameBlock where
  text : String
  anchors : List Anchor
deriving DecidableEq, Repr

/-- A parsed results page (a BeautifulSoup object), recording exactly the
element sets the scraper queries:
`paginationTexts` holds the `.get_text()` of each
`div.text-center.pagination-text`; `journal_names` the
`div.affil-name.mb-3` elements; `affiliations` the `.text` of each
`div.affil-loc.mt-2`; `accreditations` the `.text` of each
`span.num-stat.accredited`. -/
structure Soup where
  paginationTexts : List String
  journal_names : List NameBlock
  affiliations : List String
  accreditations : List String
deriving DecidableEq, Repr

/-- One extracted journal record: the dict built in `extract_journal_data`,
with keys in source order `name`, `link`, `affiliation`, `accreditation`. -/
structure Journal where
  name : String
  link : String
  affiliation : String
  accreditation : String
deriving DecidableEq, Repr

/-- A `SystemExit` raised by the program, carrying its message. -/
inductive Fatal where
  | systemExit (msg : String)
deriving DecidableEq, Repr

/-- The exit raised by both `get_pagination` and `extract_journal_data` on
any exception: `SystemExit("Aborted, Keyword Not Found!!!")`. -/
def keywordNotFoundExit : Fatal :=
  Fatal.systemExit "Aborted, Keyword Not Found!!!"

/-- The exit raised by `fetch_page` on a transport/HTTP error:
`SystemExit(f"An error occurred! Log file has been written to {log}")`. -/
def transportExit (log : String) : Fatal :=
  Fatal.systemExit ("An error occurred! Log file has been written to " ++ log)

/-- Embeds `WebScraper.get_pagination`: take the first
`div.text-center.pagination-text` element, split its text on whitespace and
convert token index 3 with `int`.  Any failure (no such element, fewer than
four tokens, non-integer token) is an exception caught by the `except`
clause, which raises `SystemExit("Aborted, Keyword Not Found!!!")`. -/
def get_pagination (soup : Soup) : Except Fatal Int :=
  match soup.paginationTexts.head? with
  | none => Except.error keywordNotFoundExit
  | some txt =>
    match (pySplit txt)[3]? with
    | none => Except.error keywordNotFoundExit
    | some tok =>
      match pyInt tok with
      | none => Except.error keywordNotFoundExit
      | some n => Except.ok n

/-- The loop of `extract_journal_data`, iterating `i` over
`range(len(journal_names))`.  Walking the three lists in lockstep is the
indexed loop: at step `i` the head of each remaining list is element `i` of
the original.  `journal_names[i].find('a')['href']` raises `KeyError` when
the first anchor exists but has no `href`; that exception is caught by the
`except` clause and becomes `SystemExit("Aborted, Keyword Not Found!!!")`.
`affiliations[i]` and `accreditations[i]` are guarded by explicit bounds
checks in the source and degrade to `''`. -/
def extractLoop : List NameBlock → List String → List String →
    Except Fatal (List Journal)
  | [], _, _ => Except.ok []
  | nb :: ns, affs, accs =>
    let linkR : Except Fatal String :=
      match nb.anchors.head? with
      | none => Except.ok ""
      | some a =>
        match a.href with
        | none => Except.error keywordNotFoundExit
        | some h => Except.ok h
    match linkR with
    | Except.error e => Except.error e
    | Except.ok link =>
      let j : Journal :=
        { name := pyStrip nb.text
          link := link
          affiliation := (affs.head?.map pyStrip).getD ""
          accreditation := (accs.head?.map pyStrip).getD "" }
      match extractLoop ns affs.tail accs.tail with
      | Except.error e => Except.error e
      | Except.ok rest => Except.ok (j :: rest)

/-- Embeds `WebScraper.extract_journal_data`: query the three element sets
with `find_all` and run the extraction loop over the name blocks. -/
def extract_journal_data (soup : Soup) : Except Fatal (List Journal) :=
  extractLoop soup.journal_names soup.affiliations soup.accreditations

/-- The first-page URL composed in `run`:
`f"{self.base_url}?q={self.keyword}"` (the keyword is not URL-encoded). -/
def initialUrl (base kw : String) : String := base ++ "?q=" ++ kw

/-- The per-page URL composed in the loop of `run`:
`f"{self.base_url}?page={page}&q={self.keyword}"`. -/
def pageUrl (base kw : String) (page : Nat) : String :=
  base ++ "?page=" ++ toString page ++ "&q=" ++ kw

/-- The external network: what `requests.get` plus BeautifulSoup parsing
yields for each URL the scraper requests.  `Except.error ()` models a
transport failure or non-success HTTP status (a `RequestException`). -/
structure Site where
  initialPage : Except Unit Soup
  pageAt : Nat → Except Unit Soup

/-- One observable side effect of a run: an HTTP GET (`requests.get`), a
pacing delay (`time.sleep`), the CSV export (`save_to_csv`), the chart
rendering (`visualize_data`), or the console table print (`tabulate`). -/
inductive Event where
  | fetch (url : String)
  | sleep (secs : Nat)
  | saveCsv (rows : List Journal)
  | visualize
  | printTable (rows : List Journal)
deriving DecidableEq, Repr

/-- Embeds the error handling of `WebScraper.fetch_page`: a successful GET
returns the parsed page; any `RequestException` is logged and re-raised as
`SystemExit(f"An error occurred! Log file has been written to {log}")`. -/
def fetch_page (log : String) (r : Except Unit Soup) : Except Fatal Soup :=
  match r with
  | Except.ok s => Except.ok s
  | Except.error _ => Except.error (transportExit log)

/-- The page loop of `WebScraper.run` (`for page in range(1, total_pages + 1)`)
over the listed page numbers: fetch the page, extract its records, extend the
accumulator, then `time.sleep(2)`.  Returns the events this iteration onward
performs together with the final accumulator (or the fatal exit that
escaped).  A failing fetch still emits its `fetch` event (the GET was
attempted); an iteration that raises performs no `sleep`. -/
def scrapeLoop (base kw log : String) (site : Site) :
    List Nat → List Journal → List Event × Except Fatal (List Journal)
  | [], acc => ([], Except.ok acc)
  | p :: rest, acc =>
    let url := pageUrl base kw p
    match fetch_page log (site.pageAt p) with
    | Except.error e => ([Event.fetch url], Except.error e)
    | Except.ok soup =>
      match extract_journal_data soup with
      | Except.error e => ([Event.fetch url], Except.error e)
      | Except.ok js =>
        match scrapeLoop base kw log site rest (acc ++ js) with
        | (evs, res) => (Event.fetch url :: Event.sleep 2 :: evs, res)

/-- Embeds `WebScraper.run`: fetch the initial page `{base}?q={kw}`, read the
page count with `get_pagination`, loop over pages `1..total` accumulating
records, then hand the collection to the export collaborators —
`save_to_csv`, `visualize_data`, and the `tabulate` console print, in that
order.  The result is the full event trace together with the collection (or
the fatal exit).  `SystemExit` is not caught by the `except Exception`
clause in `run`, so every fatal exit propagates unchanged. -/
def runScraper (base kw log : String) (site : Site) :
    List Event × Except Fatal (List Journal) :=
  let iurl := initialUrl base kw
  match fetch_page log site.initialPage with
  | Except.error e => ([Event.fetch iurl], Except.error e)
  | Except.ok s0 =>
    match get_pagination s0 with
    | Except.error e => ([Event.fetch iurl], Except.error e)
    | Except.ok total =>
      match scrapeLoop base kw log site (List.range' 1 total.toNat) [] with
      | (evs, Except.error e) => (Event.fetch iurl :: evs, Except.error e)
      | (evs, Except.ok js) =>
        (Event.fetch iurl :: evs ++
          [Event.saveCsv js, Event.visualize, Event.printTable js],
         Except.ok js)

/-- Quote one CSV field as the external CSV writer (pandas `to_csv` with its
default minimal quoting) does: wrap in double quotes, doubling any embedded
quote, exactly when the field contains a delimiter, quote or line break. -/
def csvField (s : String) : String :=
  if s.data.any (fun c => c = ',' || c = '"' || c = '\n' || c = '\r') then
    "\"" ++ String.mk (s.data.flatMap (fun c => if c = '"' then ['"', '"'] else [c])) ++ "\""
  else s

/-- Models the external tabular-export collaborator used by `save_to_csv`
(`pd.DataFrame(data).to_csv(self.filename, index=False)`): a header row with
the dict keys in source order, then one line per record. -/
def to_csv (rows : List Journal) : String :=
  "name,link,affiliation,accreditation\n" ++
    String.join (rows.map (fun j =>
      csvField j.name ++ "," ++ csvField j.link ++ "," ++
        csvField j.affiliation ++ "," ++ csvField j.accreditation ++ "\n"))

/-- The run-scoped output directory from `_create_output_directory`:
`scraped_data/{keyword}_{timestamp}`. -/
def output_dir (kw dirTs : String) : String :=
  "scraped_data/" ++ kw ++ "_" ++ dirTs

/-- The CSV path from `__init__`:
`{output_dir}/journal_data_{timestamp}.csv` (the timestamp is sampled again,
so it may differ from the directory timestamp). -/
def csv_filename (kw dirTs fileTs : String) : String :=
  output_dir kw dirTs ++ "/journal_data_" ++ fileTs ++ ".csv"

/-- The log path from `__init__`: `{output_dir}/scraping_log_{timestamp}.log`. -/
def log_filename (kw dirTs logTs : String) : String :=
  output_dir kw dirTs ++ "/scraping_log_" ++ logTs ++ ".log"

/-- The tabular artifact of one full pipeline run: the CSV path and the CSV
content `save_to_csv` writes, or `none` when the run aborts before the
export stage. -/
def pipelineCsv (base kw dirTs fileTs logTs : String) (site : Site) :
    Option (String × String) :=
  match (runScraper base kw (log_filename kw dirTs logTs) site).2 with
  | Except.ok js => some (csv_filename kw dirTs fileTs, to_csv js)
  | Except.error _ => none

/-- The records page `p` contributes to the accumulator: the extraction of
its fetched page, `[]` when the page is unreachable or fails extraction. -/
def pageRecs (site : Site) (p : Nat) : List Journal :=
  match site.pageAt p with
  | Except.error _ => []
  | Except.ok s =>
    match extract_journal_data s with
    | Except.error _ => []
    | Except.ok js => js

/-- Page `p` is reachable and extracts cleanly. -/
def pageOkP (site : Site) (p : Nat) : Prop :=
  ∃ s js, site.pageAt p = Except.ok s ∧ extract_journal_data s = Except.ok js

/-- Whether an event is a pacing delay. -/
def isSleepEvent : Event → Bool
  | Event.sleep _ => true
  | _ => false

/-- Whether an event is an HTTP GET. -/
def isFetchEvent : Event → Bool
  | Event.fetch _ => true
  | _ => false

/-- Whether an event belongs to the export/visualization/print stage. -/
def isExportEvent : Event → Bool
  | Event.saveCsv _ => true
  | Event.visualize => true
  | Event.printTable _ => true
  | _ => false

/-- Every pair of fetches of consecutively numbered pages has a pacing
delay strictly between them in the trace. -/
def pacedBetween (base kw : String) (evs : List Event) : Prop :=
  ∀ (i j p q : Nat), evs[i]? = some (Event.fetch (pageUrl base kw p)) →
    evs[j]? = some (Event.fetch (pageUrl base kw q)) → q = p + 1 → i < j →
    ∃ k : Nat, i < k ∧ k < j ∧ evs[k]? = some (Event.sleep 2)

/-- A name block whose first anchor, when present, carries an `href`
attribute, so that `find('a')['href']` cannot raise `KeyError`. -/
def anchorOk (nb : NameBlock) : Bool :=
  match nb.anchors.head? with
  | none => true
  | some a => a.href.isSome

/-- The record list `extract_journal_data` builds when no iteration raises:
one record per name block, fields aligned positionally with graceful
degradation to the empty string. -/
def extractPure : List NameBlock → List String → List String → List Journal
  | [], _, _ => []
  | nb :: ns, affs, accs =>
    { name := pyStrip nb.text
      link := ((nb.anchors.head?).bind Anchor.href).getD ""
      affiliation := (affs.head?.map pyStrip).getD ""
      accreditation := (accs.head?.map pyStrip).getD "" } ::
      extractPure ns affs.tail accs.tail

/-- The record an iteration of `extract_journal_data` builds once its link
value is known. -/
def mkRecord (nb : NameBlock) (link : String) (affs accs : List String) :
    Journal :=
  { name := pyStrip nb.text
    link := link
    affiliation := (affs.head?.map pyStrip).getD ""
    accreditation := (accs.head?.map pyStrip).getD "" }

theorem extractPure_length (ns : List NameBlock) :
    ∀ affs accs, (extractPure ns affs accs).length = ns.length := by
  induction ns with
  | nil => intro affs accs; rfl
  | cons nb ns ih => intro affs accs; simp [extractPure, ih]

theorem tail_getElem? {α : Type} (l : List α) (i : Nat) :
    l.tail[i]? = l[i + 1]? := by
  cases l with
  | nil => simp
  | cons a l => simp

theorem extractPure_getElem? (ns : List NameBlock) :
    ∀ (affs accs : List String) (i : Nat),
      (extractPure ns affs accs)[i]? = ns[i]?.map (fun nb =>
        { name := pyStrip nb.text
          link := ((nb.anchors.head?).bind Anchor.href).getD ""
          affiliation := (affs[i]?.map pyStrip).getD ""
          accreditation := (accs[i]?.map pyStrip).getD "" }) := by
  induction ns with
  | nil => intro affs accs i; simp [extractPure]
  | cons nb ns ih =>
    intro affs accs i
    cases i with
    | zero =>
      simp [extractPure]
      cases affs <;> cases accs <;> simp
    | succ i =>
      simp only [extractPure, List.getElem?_cons_succ]
      rw [ih affs.tail accs.tail i, tail_getElem?, tail_getElem?]

theorem extractLoop_cons_none {nb : NameBlock} (ns : List NameBlock)
    (affs accs : List String) (h : nb.anchors.head? = none) :
    extractLoop (nb :: ns) affs accs =
      match extractLoop ns affs.tail accs.tail with
      | Except.error e => Except.error e
      | Except.ok rest => Except.ok (mkRecord nb "" affs accs :: rest) := by
  simp only [extractLoop, h, mkRecord]

theorem extractLoop_cons_some {nb : NameBlock} {a : Anchor} {v : String}
    (ns : List NameBlock) (affs accs : List String)
    (h : nb.anchors.head? = some a) (hh : a.href = some v) :
    extractLoop (nb :: ns) affs accs =
      match extractLoop ns affs.tail accs.tail with
      | Except.error e => Except.error e
      | Except.ok rest => Except.ok (mkRecord nb v affs accs :: rest) := by
  simp only [extractLoop, h, hh, mkRecord]

theorem extractLoop_cons_bad {nb : NameBlock} {a : Anchor}
    (ns : List NameBlock) (affs accs : List String)
    (h : nb.anchors.head? = some a) (hh : a.href = none) :
    extractLoop (nb :: ns) affs accs = Except.error keywordNotFoundExit := by
  simp only [extractLoop, h, hh]

theorem extractLoop_ok_of_anchors (ns : List NameBlock) :
    ∀ affs accs, (∀ nb ∈ ns, anchorOk nb = true) →
      extractLoop ns affs accs = Except.ok (extractPure ns affs accs) := by
  induction ns with
  | nil => intro affs accs _; rfl
  | cons nb ns ih =>
    intro affs accs h
    have hnb : anchorOk nb = true := h nb (by simp)
    have hrest : ∀ b ∈ ns, anchorOk b = true := fun b hb => h b (by simp [hb])
    have hrec := ih affs.tail accs.tail hrest
    unfold anchorOk at hnb
    cases ha : nb.anchors.head? with
    | none =>
      rw [extractLoop_cons_none ns affs accs ha, hrec]
      simp [extractPure, mkRecord, ha]
    | some a =>
      rw [ha] at hnb
      simp only [Option.isSome_iff_exists] at hnb
      obtain ⟨v, hh⟩ := hnb
      rw [extractLoop_cons_some ns affs accs ha hh, hrec]
      simp [extractPure, mkRecord, ha, hh]

theorem extractLoop_ok_elim (ns : List NameBlock) :
    ∀ affs accs js, extractLoop ns affs accs = Except.ok js →
      (∀ nb ∈ ns, anchorOk nb = true) ∧ js = extractPure ns affs accs := by
  induction ns with
  | nil =>
    intro affs accs js h
    simp only [extractLoop] at h
    cases h
    exact ⟨by simp, rfl⟩
  | cons nb ns ih =>
    intro affs accs js h
    cases ha : nb.anchors.head? with
    | none =>
      rw [extractLoop_cons_none ns affs accs ha] at h
      cases hrec : extractLoop ns affs.tail accs.tail with
      | error e => rw [hrec] at h; cases h
      | ok rest =>
        rw [hrec] at h
        cases h
        obtain ⟨h1, h2⟩ := ih affs.tail accs.tail rest hrec
        refine ⟨?_, ?_⟩
        · intro b hb
          rcases List.mem_cons.mp hb with hb | hb
          · subst hb; simp [anchorOk, ha]
          · exact h1 b hb
        · simp [extractPure, mkRecord, h2, ha]
    | some a =>
      cases hh : a.href with
      | none =>
        rw [extractLoop_cons_bad ns affs accs ha hh] at h
        cases h
      | some v =>
        rw [extractLoop_cons_some ns affs accs ha hh] at h
        cases hrec : extractLoop ns affs.tail accs.tail with
        | error e => rw [hrec] at h; cases h
        | ok rest =>
          rw [hrec] at h
          cases h
          obtain ⟨h1, h2⟩ := ih affs.tail accs.tail rest hrec
          refine ⟨?_, ?_⟩
          · intro b hb
            rcases List.mem_cons.mp hb with hb | hb
            · subst hb; simp [anchorOk, ha, hh]
            · exact h1 b hb
          · simp [extractPure, mkRecord, h2, ha, hh]

theorem extractLoop_err_of_badAnchor (ns : List NameBlock) :
    ∀ (affs accs : List String) (i : Nat) (nb : NameBlock) (a : Anchor),
      ns[i]? = some nb → nb.anchors.head? = some a → a.href = none →
      extractLoop ns affs accs = Except.error keywordNotFoundExit := by
  induction ns with
  | nil => intro affs accs i nb a h _ _; simp at h
  | cons nb0 ns ih =>
    intro affs accs i nb a hnb ha hh
    cases i with
    | zero =>
      simp at hnb
      subst hnb
      exact extractLoop_cons_bad ns affs accs ha hh
    | succ i =>
      simp only [List.getElem?_cons_succ] at hnb
      have hrec := ih affs.tail accs.tail i nb a hnb ha hh
      cases ha0 : nb0.anchors.head? with
      | none => rw [extractLoop_cons_none ns affs accs ha0, hrec]
      | some a0 =>
        cases hh0 : a0.href with
        | none => exact extractLoop_cons_bad ns affs accs ha0 hh0
        | some v => rw [extractLoop_cons_some ns affs accs ha0 hh0, hrec]

theorem scrapeLoop_ok_of_pagesOk (base kw log : String) (site : Site)
    (ps : List Nat) :
    ∀ acc, (∀ p ∈ ps, pageOkP site p) →
      scrapeLoop base kw log site ps acc =
        (ps.flatMap (fun p => [Event.fetch (pageUrl base kw p), Event.sleep 2]),
         Except.ok (acc ++ ps.flatMap (pageRecs site))) := by
  induction ps with
  | nil => intro acc _; simp [scrapeLoop]
  | cons p ps ih =>
    intro acc h
    obtain ⟨s, js, hs, hjs⟩ := h p (by simp)
    have hrest : ∀ q ∈ ps, pageOkP site q := fun q hq => h q (by simp [hq])
    have hrec := ih (acc ++ js) hrest
    have hpr : pageRecs site p = js := by simp [pageRecs, hs, hjs]
    simp only [scrapeLoop, fetch_page, hs, hjs, hrec]
    simp [hpr, List.append_assoc]

theorem scrapeLoop_ok_elim (base kw log : String) (site : Site)
    (ps : List Nat) :
    ∀ acc evs js, scrapeLoop base kw log site ps acc = (evs, Except.ok js) →
      ∀ p ∈ ps, pageOkP site p := by
  induction ps with
  | nil => intro acc evs js _ p hp; simp at hp
  | cons p ps ih =>
    intro acc evs js h q hq
    cases hf : site.pageAt p with
    | error e =>
      simp only [scrapeLoop, fetch_page, hf] at h
      cases h
    | ok s =>
      cases he : extract_journal_data s with
      | error e =>
        simp only [scrapeLoop, fetch_page, hf, he] at h
        cases h
      | ok js0 =>
        simp only [scrapeLoop, fetch_page, hf, he] at h
        cases hrec : scrapeLoop base kw log site ps (acc ++ js0) with
        | mk evs' res =>
          rw [hrec] at h
          simp only [Prod.mk.injEq] at h
          obtain ⟨hevs, hres⟩ := h
          rcases List.mem_cons.mp hq with hq | hq
          · exact hq ▸ ⟨s, js0, hf, he⟩
          · exact ih (acc ++ js0) evs' js (by rw [hrec, hres]) q hq

theorem scrapeLoop_transport_err (base kw log : String) (site : Site) :
    ∀ (n s : Nat) (acc : List Journal) (p : Nat), s ≤ p → p < s + n →
      (∀ q, s ≤ q → q < p → pageOkP site q) →
      site.pageAt p = Except.error () →
      (scrapeLoop base kw log site (List.range' s n) acc).2 =
        Except.error (transportExit log) := by
  intro n
  induction n with
  | zero => intro s acc p h1 h2 _ _; omega
  | succ n ih =>
    intro s acc p h1 h2 hprev herr
    rw [List.range'_succ]
    by_cases hsp : s = p
    · subst hsp
      simp only [scrapeLoop, fetch_page, herr]
    · have hslt : s < p := lt_of_le_of_ne h1 hsp
      obtain ⟨sq, jq, hq1, hq2⟩ := hprev s (le_refl s) hslt
      simp only [scrapeLoop, fetch_page, hq1, hq2]
      cases hrec : scrapeLoop base kw log site (List.range' (s + 1) n) (acc ++ jq) with
      | mk evs' res =>
        have hres := ih (s + 1) (acc ++ jq) p (by omega) (by omega)
          (fun q hq hq' => hprev q (by omega) hq') herr
        rw [hrec] at hres
        simpa using hres

theorem scrapeLoop_no_export (base kw log : String) (site : Site)
    (ps : List Nat) :
    ∀ acc, ((scrapeLoop base kw log site ps acc).1).any isExportEvent = false := by
  induction ps with
  | nil => intro acc; simp [scrapeLoop]
  | cons p ps ih =>
    intro acc
    cases hf : site.pageAt p with
    | error e => simp [scrapeLoop, fetch_page, hf, isExportEvent]
    | ok s =>
      cases he : extract_journal_data s with
      | error e => simp [scrapeLoop, fetch_page, hf, he, isExportEvent]
      | ok js =>
        simp only [scrapeLoop, fetch_page, hf, he]
        cases hrec : scrapeLoop base kw log site ps (acc ++ js) with
        | mk evs' res =>
          have := ih (acc ++ js)
          rw [hrec] at this
          simpa [isExportEvent] using this

theorem scrapeLoop_log_toOption (base kw log log' : String) (site : Site)
    (ps : List Nat) :
    ∀ acc, ((scrapeLoop base kw log site ps acc).2).toOption =
      ((scrapeLoop base kw log' site ps acc).2).toOption := by
  induction ps with
  | nil => intro acc; rfl
  | cons p ps ih =>
    intro acc
    cases hf : site.pageAt p with
    | error e => simp [scrapeLoop, fetch_page, hf, Except.toOption]
    | ok s =>
      cases he : extract_journal_data s with
      | error e => simp [scrapeLoop, fetch_page, hf, he]
      | ok js =>
        simp only [scrapeLoop, fetch_page, hf, he]
        cases hrec : scrapeLoop base kw log site ps (acc ++ js) with
        | mk evs1 res1 =>
          cases hrec' : scrapeLoop base kw log' site ps (acc ++ js) with
          | mk evs2 res2 =>
            have := ih (acc ++ js)
            rw [hrec, hrec'] at this
            simpa using this

theorem runScraper_ok_char (base kw log : String) (site : Site) (s0 : Soup)
    (total : Int) (js : List Journal)
    (h0 : site.initialPage = Except.ok s0)
    (h1 : get_pagination s0 = Except.ok total)
    (h2 : (runScraper base kw log site).2 = Except.ok js) :
    js = (List.range' 1 total.toNat).flatMap (pageRecs site) ∧
    (runScraper base kw log site).1 =
      Event.fetch (initialUrl base kw) ::
        (List.range' 1 total.toNat).flatMap
          (fun p => [Event.fetch (pageUrl base kw p), Event.sleep 2]) ++
        [Event.saveCsv js, Event.visualize, Event.printTable js] := by
  have hok : ∀ p ∈ List.range' 1 total.toNat, pageOkP site p := by
    cases hrec : scrapeLoop base kw log site (List.range' 1 total.toNat) [] with
    | mk evs res =>
      cases res with
      | error e =>
        simp only [runScraper, fetch_page, h0, h1, hrec] at h2
        cases h2
      | ok js' =>
        exact scrapeLoop_ok_elim base kw log site _ [] evs js' hrec
  have hchar := scrapeLoop_ok_of_pagesOk base kw log site _ [] hok
  simp only [runScraper, fetch_page, h0, h1, hchar] at h2 ⊢
  simp only [List.nil_append] at h2 ⊢
  cases h2
  exact ⟨rfl, rfl⟩

theorem runScraper_err_no_export (base kw log : String) (site : Site)
    (e : Fatal) (h : (runScraper base kw log site).2 = Except.error e) :
    ((runScraper base kw log site).1).any isExportEvent = false := by
  cases h0 : site.initialPage with
  | error u => simp [runScraper, fetch_page, h0, isExportEvent]
  | ok s0 =>
    cases h1 : get_pagination s0 with
    | error e' => simp [runScraper, fetch_page, h0, h1, isExportEvent]
    | ok total =>
      cases hrec : scrapeLoop base kw log site (List.range' 1 total.toNat) [] with
      | mk evs res =>
        cases res with
        | error e' =>
          have hne := scrapeLoop_no_export base kw log site (List.range' 1 total.toNat) []
          rw [hrec] at hne
          simp only [runScraper, fetch_page, h0, h1, hrec]
          simpa [isExportEvent] using hne
        | ok js =>
          simp only [runScraper, fetch_page, h0, h1, hrec] at h
          cases h

theorem runScraper_log_toOption (base kw log log' : String) (site : Site) :
    ((runScraper base kw log site).2).toOption =
      ((runScraper base kw log' site).2).toOption := by
  cases h0 : site.initialPage with
  | error u => simp [runScraper, fetch_page, h0, Except.toOption]
  | ok s0 =>
    cases h1 : get_pagination s0 with
    | error e => simp [runScraper, fetch_page, h0, h1]
    | ok total =>
      cases hrec : scrapeLoop base kw log site (List.range' 1 total.toNat) [] with
      | mk evs1 res1 =>
        cases hrec' : scrapeLoop base kw log' site (List.range' 1 total.toNat) [] with
        | mk evs2 res2 =>
          have := scrapeLoop_log_toOption base kw log log' site
            (List.range' 1 total.toNat) []
          rw [hrec, hrec'] at this
          simp only [runScraper, fetch_page, h0, h1, hrec, hrec']
          cases res1 <;> cases res2 <;> simp_all

theorem flatMap_pair_length {α : Type} (f g : Nat → α) :
    ∀ (n s : Nat),
      ((List.range' s n).flatMap (fun p => [f p, g p])).length = 2 * n := by
  intro n
  induction n with
  | zero => intro s; rfl
  | succ n ih =>
    intro s
    rw [List.range'_succ, List.flatMap_cons, List.length_append, ih (s + 1)]
    simp
    omega

theorem flatMap_pair_getElem? {α : Type} (f g : Nat → α) :
    ∀ (n s j : Nat), j < 2 * n →
      ((List.range' s n).flatMap (fun p => [f p, g p]))[j]? =
        some (if j % 2 = 0 then f (s + j / 2) else g (s + j / 2)) := by
  intro n
  induction n with
  | zero => intro s j h; omega
  | succ n ih =>
    intro s j h
    rw [List.range'_succ, List.flatMap_cons]
    match j with
    | 0 => simp
    | 1 => simp
    | (j + 2) =>
      have h2 : (j + 2) % 2 = j % 2 := Nat.add_mod_right j 2
      have h3 : s + (j + 2) / 2 = s + 1 + j / 2 := by
        rw [Nat.add_div_right j (by norm_num)]
        omega
      have hlt : j < 2 * n := by omega
      calc ([f s, g s] ++ (List.range' (s + 1) n).flatMap (fun p => [f p, g p]))[j + 2]?
          = ((List.range' (s + 1) n).flatMap (fun p => [f p, g p]))[j]? := by
            rw [List.cons_append, List.cons_append, List.nil_append,
              List.getElem?_cons_succ, List.getElem?_cons_succ]
        _ = some (if j % 2 = 0 then f (s + 1 + j / 2) else g (s + 1 + j / 2)) :=
            ih (s + 1) j hlt
        _ = some (if (j + 2) % 2 = 0 then f (s + (j + 2) / 2)
              else g (s + (j + 2) / 2)) := by rw [h2, h3]

theorem flatMap_pair_filter_sleep (u : Nat → String) :
    ∀ (n s : Nat),
      ((List.range' s n).flatMap
        (fun p => [Event.fetch (u p), Event.sleep 2])).filter isSleepEvent =
        List.replicate n (Event.sleep 2) := by
  intro n
  induction n with
  | zero => intro s; rfl
  | succ n ih =>
    intro s
    rw [List.range'_succ, List.flatMap_cons, List.filter_append, ih (s + 1)]
    simp [isSleepEvent, List.replicate_succ]

theorem flatMap_pair_filter_fetch (u : Nat → String) :
    ∀ (n s : Nat),
      ((List.range' s n).flatMap
        (fun p => [Event.fetch (u p), Event.sleep 2])).filter isFetchEvent =
        (List.range' s n).map (fun p => Event.fetch (u p)) := by
  intro n
  induction n with
  | zero => intro s; rfl
  | succ n ih =>
    intro s
    rw [List.range'_succ, List.flatMap_cons, List.filter_append, ih (s + 1)]
    simp [isFetchEvent, List.range'_succ]

theorem string_literal_lengths :
    ("?q=" : String).length = 3 ∧ ("?page=" : String).length = 6 ∧
      ("&q=" : String).length = 3 := by
  refine ⟨rfl, rfl, rfl⟩

theorem initialUrl_ne_pageUrl (base kw : String) (p : Nat) :
    initialUrl base kw ≠ pageUrl base kw p := by
  intro h
  have hlen := congrArg String.length h
  simp only [initialUrl, pageUrl, String.length_append] at hlen
  rw [string_literal_lengths.1, string_literal_lengths.2.1,
    string_literal_lengths.2.2] at hlen
  omega

/-- Claim C1, counterexample: on the pagination text of the claim's own
example, "Showing results page 1 of 7", `get_pagination` returns the integer
value of the 4th whitespace-delimited token, which is the current page
number 1 — not the total page count 7 the claim promises — and raises
nothing. -/
theorem get_pagination_showing_example :
    get_pagination (Soup.mk ["Showing results page 1 of 7"] [] [] []) =
      Except.ok 1 ∧
    get_pagination (Soup.mk ["Showing results page 1 of 7"] [] [] []) ≠
      Except.ok 7 := by
  exact ⟨by decide, by decide⟩

/-- Claim C1, amended: `get_pagination` returns the integer value of the 4th
whitespace-delimited token (index 3) of the first pagination text whenever
that token parses as an integer — on the claim's example text
"Showing results page 1 of 7" that token is the current page number "1",
not the total "7"; the total is the 4th token only in the actual source
format, e.g. "Page 1 of 7 | Total Records : 63" — and it raises the fatal
`SystemExit("Aborted, Keyword Not Found!!!")` when the 4th token is missing
or not an integer, or when the pagination marker is absent. -/
theorem get_pagination_fourth_token (txt bad : String)
    (rest rest2 : List String) (ns ns2 : List NameBlock)
    (affs accs affs2 accs2 : List String) (n : Int)
    (h : ((pySplit txt)[3]?).bind pyInt = some n)
    (hbad : ((pySplit bad)[3]?).bind pyInt = none) :
    get_pagination (Soup.mk (txt :: rest) ns affs accs) = Except.ok n ∧
    get_pagination (Soup.mk (bad :: rest2) ns2 affs2 accs2) =
      Except.error keywordNotFoundExit ∧
    get_pagination (Soup.mk [] ns affs accs) =
      Except.error keywordNotFoundExit := by
  refine ⟨?_, ?_, rfl⟩
  · cases h4 : (pySplit txt)[3]? with
    | none => rw [h4] at h; simp at h
    | some tok =>
      rw [h4, Option.some_bind] at h
      simp [get_pagination, h4, h]
  · cases h4 : (pySplit bad)[3]? with
    | none => simp [get_pagination, h4]
    | some tok =>
      rw [h4, Option.some_bind] at hbad
      simp [get_pagination, h4, hbad]

/-- Claim C1, witness: the real source format "Page 1 of 7 | Total Records :
63" yields 7 as the 4th token; "Showing page 1 of 42" has the non-integer
4th token "of" and aborts; a page without the marker aborts. -/
theorem get_pagination_fourth_token_witness :
    get_pagination (Soup.mk ["Page 1 of 7 | Total Records : 63"] [] [] []) =
      Except.ok 7 ∧
    get_pagination (Soup.mk ["Showing page 1 of 42"] [] [] []) =
      Except.error keywordNotFoundExit ∧
    get_pagination (Soup.mk [] [] [] []) =
      Except.error keywordNotFoundExit :=
  get_pagination_fourth_token "Page 1 of 7 | Total Records : 63"
    "Showing page 1 of 42" [] [] [] [] [] [] [] [] 7 (by decide) (by decide)

/-- Claim C3, counterexample: on a page where the record markers are
entirely absent — no name, affiliation or accreditation blocks are found —
`extract_journal_data` returns the empty record list; it does not raise the
"no results" exit the claim promises. -/
theorem extract_empty_markers_ok :
    extract_journal_data (Soup.mk [] [] [] []) = Except.ok [] ∧
    extract_journal_data (Soup.mk [] [] [] []) ≠
      Except.error keywordNotFoundExit := by
  exact ⟨rfl, by decide⟩

/-- Claim C3, amended: when no name blocks are found — in particular when
the record markers are entirely absent from the page — `extract_journal_data`
does not fail: the loop body runs zero times and it returns the empty record
list.  The "no results" exit arises only from an actual exception inside
extraction, such as a first anchor lacking `href`. -/
theorem extract_no_markers_returns_nil (pts affs accs : List String) :
    extract_journal_data (Soup.mk pts [] affs accs) = Except.ok [] := rfl

/-- Claim C2, counterexample: a page with one name block (`k = 1`) whose
first anchor lacks `href`, no affiliation and no accreditation blocks,
yields no records at all — extraction aborts — rather than the one record
the claim promises for every page with `k` name blocks. -/
theorem extract_records_counterexample :
    (extract_journal_data
      (Soup.mk [] [NameBlock.mk "X" [Anchor.mk none]] [] [])).isOk = false ∧
    extract_journal_data (Soup.mk [] [NameBlock.mk "X" [Anchor.mk none]] [] []) =
      Except.error keywordNotFoundExit := by
  exact ⟨by decide, by decide⟩

/-- Claim C2, amended: for every page with `k` name blocks, `m` affiliation
blocks and `p` accreditation blocks in which each name block's first anchor,
when present, carries an `href` attribute (without this proviso a single
href-less first anchor aborts the whole extraction, see claim C10),
`extract_journal_data` returns exactly `k` records; the record at index `i`
has affiliation equal to the trimmed text of affiliation block `i` when
`i < m` and the empty string when `i ≥ m`, and likewise accreditation with
respect to `p`; a shortfall in either set never causes a record to be
dropped. -/
theorem extract_records_aligned (soup : Soup)
    (hanch : ∀ nb ∈ soup.journal_names, anchorOk nb = true) :
    ∃ js, extract_journal_data soup = Except.ok js ∧
      js.length = soup.journal_names.length ∧
      ∀ i : Nat, i < soup.journal_names.length →
        js[i]?.map Journal.affiliation =
          some ((soup.affiliations[i]?.map pyStrip).getD "") ∧
        js[i]?.map Journal.accreditation =
          some ((soup.accreditations[i]?.map pyStrip).getD "") := by
  refine ⟨extractPure soup.journal_names soup.affiliations soup.accreditations,
    extractLoop_ok_of_anchors soup.journal_names soup.affiliations
      soup.accreditations hanch,
    extractPure_length soup.journal_names soup.affiliations soup.accreditations,
    ?_⟩
  intro i hi
  rw [extractPure_getElem? soup.journal_names soup.affiliations
    soup.accreditations i, List.getElem?_eq_getElem hi]
  simp

/-- Claim C2, witness: a page with two name blocks, one affiliation block
and no accreditation blocks yields two records; record 0 carries the trimmed
affiliation text, record 1 degrades both optional fields to the empty
string. -/
theorem extract_records_aligned_witness :
    ∃ js, extract_journal_data
        (Soup.mk [] [NameBlock.mk " A " [], NameBlock.mk "B" [Anchor.mk (some "u")]]
          [" Aff "] []) = Except.ok js ∧
      js.length = 2 ∧
      ∀ i : Nat, i < 2 →
        js[i]?.map Journal.affiliation =
          some ((([" Aff "] : List String)[i]?.map pyStrip).getD "") ∧
        js[i]?.map Journal.accreditation =
          some ((([] : List String)[i]?.map pyStrip).getD "") :=
  extract_records_aligned
    (Soup.mk [] [NameBlock.mk " A " [], NameBlock.mk "B" [Anchor.mk (some "u")]]
      [" Aff "] []) (by decide)

/-- Claim C6: whenever extraction returns records, the record at index `i`
has `link` equal to the `href` attribute of the first anchor nested inside
name block `i` when such an anchor exists, and the empty string when no
anchor exists in the block. -/
theorem extract_link_field (soup : Soup) (js : List Journal) (i : Nat)
    (nb : NameBlock) (h : extract_journal_data soup = Except.ok js)
    (hnb : soup.journal_names[i]? = some nb) :
    match nb.anchors.head? with
    | none => js[i]?.map Journal.link = some ""
    | some a => ∃ href, a.href = some href ∧
        js[i]?.map Journal.link = some href := by
  obtain ⟨hanch, hjs⟩ := extractLoop_ok_elim soup.journal_names
    soup.affiliations soup.accreditations js h
  subst hjs
  rw [extractPure_getElem? soup.journal_names soup.affiliations
    soup.accreditations i, hnb]
  cases ha : nb.anchors.head? with
  | none => simp [ha]
  | some a =>
    have hmem : nb ∈ soup.journal_names := List.getElem?_mem hnb
    have hok := hanch nb hmem
    unfold anchorOk at hok
    rw [ha] at hok
    obtain ⟨v, hv⟩ := Option.isSome_iff_exists.mp hok
    exact ⟨v, hv, by simp [ha, hv]⟩

/-- Claim C6, witness: a name block with a first anchor linking to "u" yields
a record whose link is "u"; a name block without anchors yields link "". -/
theorem extract_link_field_witness :
    ∃ href, (Anchor.mk (some "u")).href = some href ∧
      ([Journal.mk "N" "u" "" ""] : List Journal)[0]?.map Journal.link =
        some href :=
  extract_link_field
    (Soup.mk [] [NameBlock.mk "N" [Anchor.mk (some "u")]] [] [])
    [Journal.mk "N" "u" "" ""] 0 (NameBlock.mk "N" [Anchor.mk (some "u")])
    (by decide) (by decide)

/-- Claim C10: if some name block's first anchor exists but carries no
`href` attribute, `extract_journal_data` does not produce a record with an
empty link; the whole extraction aborts with the very exit value
`SystemExit("Aborted, Keyword Not Found!!!")` that the pagination reader
raises on failure. -/
theorem extract_badAnchor_aborts (soup : Soup) (i : Nat) (nb : NameBlock)
    (a : Anchor) (hnb : soup.journal_names[i]? = some nb)
    (ha : nb.anchors.head? = some a) (hh : a.href = none) :
    extract_journal_data soup = Except.error keywordNotFoundExit :=
  extractLoop_err_of_badAnchor soup.journal_names soup.affiliations
    soup.accreditations i nb a hnb ha hh

/-- Claim C10, witness: one name block whose sole anchor has no `href`
makes the extraction abort with the "no results" exit. -/
theorem extract_badAnchor_aborts_witness :
    extract_journal_data
      (Soup.mk [] [NameBlock.mk "J" [Anchor.mk none]] ["A"] ["S1"]) =
      Except.error keywordNotFoundExit :=
  extract_badAnchor_aborts
    (Soup.mk [] [NameBlock.mk "J" [Anchor.mk none]] ["A"] ["S1"]) 0
    (NameBlock.mk "J" [Anchor.mk none]) (Anchor.mk none)
    (by decide) (by decide) (by decide)

/-- Claim C4: in every successful collection run the accumulated sequence is
the concatenation of the per-page extraction results in page order
`1..totalPages`, each page's records in intra-page order; its length is the
sum of the per-page record counts; and no deduplication happens — every
record occurs exactly as often as the pages together produce it, so a record
identical on two pages appears twice. -/
theorem run_collects_in_page_order (base kw log : String) (site : Site)
    (s0 : Soup) (total : Int) (js : List Journal)
    (h0 : site.initialPage = Except.ok s0)
    (h1 : get_pagination s0 = Except.ok total)
    (h2 : (runScraper base kw log site).2 = Except.ok js) :
    js = (List.range' 1 total.toNat).flatMap (pageRecs site) ∧
    js.length = ((List.range' 1 total.toNat).map
      (fun p => (pageRecs site p).length)).sum ∧
    ∀ r : Journal, js.count r = ((List.range' 1 total.toNat).map
      (fun p => (pageRecs site p).count r)).sum := by
  obtain ⟨hjs, _⟩ := runScraper_ok_char base kw log site s0 total js h0 h1 h2
  subst hjs
  refine ⟨rfl, ?_, ?_⟩
  · rw [List.length_flatMap]; rfl
  · intro r; rw [List.count_flatMap]; rfl

/-- Claim C4, witness: two pages that each produce the same single record
give a two-element collection holding that record twice. -/
theorem run_collects_in_page_order_witness :
    [Journal.mk "Dup" "" "" "", Journal.mk "Dup" "" "" ""] =
      (List.range' 1 (2 : Int).toNat).flatMap
        (pageRecs (Site.mk (Except.ok (Soup.mk ["Page 1 of 2 | X"] [] [] []))
          (fun _ => Except.ok (Soup.mk [] [NameBlock.mk "Dup" []] [] [])))) ∧
    ([Journal.mk "Dup" "" "" "", Journal.mk "Dup" "" "" ""] : List Journal).length =
      ((List.range' 1 (2 : Int).toNat).map
        (fun p => (pageRecs (Site.mk
          (Except.ok (Soup.mk ["Page 1 of 2 | X"] [] [] []))
          (fun _ => Except.ok (Soup.mk [] [NameBlock.mk "Dup" []] [] []))) p).length)).sum ∧
    ∀ r : Journal,
      ([Journal.mk "Dup" "" "" "", Journal.mk "Dup" "" "" ""] : List Journal).count r =
        ((List.range' 1 (2 : Int).toNat).map
          (fun p => (pageRecs (Site.mk
            (Except.ok (Soup.mk ["Page 1 of 2 | X"] [] [] []))
            (fun _ => Except.ok (Soup.mk [] [NameBlock.mk "Dup" []] [] []))) p).count r)).sum :=
  run_collects_in_page_order "b" "k" "l"
    (Site.mk (Except.ok (Soup.mk ["Page 1 of 2 | X"] [] [] []))
      (fun _ => Except.ok (Soup.mk [] [NameBlock.mk "Dup" []] [] [])))
    (Soup.mk ["Page 1 of 2 | X"] [] [] []) 2
    [Journal.mk "Dup" "" "" "", Journal.mk "Dup" "" "" ""]
    rfl (by decide) (by decide)

/-- Claim C5: a transport/HTTP error while fetching any page the run
reaches — the first discovery page included — halts the run with the
transport `SystemExit`, and no export, visualization or console-print event
is performed: no partial collection reaches the export collaborators. -/
theorem run_transport_halts (base kw log : String) (site : Site)
    (h : site.initialPage = Except.error () ∨
      ∃ s0 total p, site.initialPage = Except.ok s0 ∧
        get_pagination s0 = Except.ok total ∧ 1 ≤ p ∧ p ≤ total.toNat ∧
        site.pageAt p = Except.error () ∧
        ∀ q, 1 ≤ q → q < p → pageOkP site q) :
    (runScraper base kw log site).2 = Except.error (transportExit log) ∧
    ((runScraper base kw log site).1).any isExportEvent = false := by
  have herr : (runScraper base kw log site).2 =
      Except.error (transportExit log) := by
    rcases h with h | ⟨s0, total, p, h0, h1, hp1, hp2, hperr, hprev⟩
    · simp [runScraper, fetch_page, h]
    · cases hrec : scrapeLoop base kw log site (List.range' 1 total.toNat) [] with
      | mk evs res =>
        have hres := scrapeLoop_transport_err base kw log site total.toNat 1 []
          p hp1 (by omega) (fun q hq hq' => hprev q hq hq') hperr
        rw [hrec] at hres
        simp only [runScraper, fetch_page, h0, h1, hrec]
        cases res with
        | error e => simp at hres; rw [hres]
        | ok js' => simp at hres
  exact ⟨herr, runScraper_err_no_export base kw log site _ herr⟩

/-- Claim C5, witness: a site whose very first fetch fails transport-wise
makes the run abort with the transport exit and perform no export event. -/
theorem run_transport_halts_witness :
    (runScraper "b" "k" "l"
      (Site.mk (Except.error ()) (fun _ => Except.error ()))).2 =
      Except.error (transportExit "l") ∧
    ((runScraper "b" "k" "l"
      (Site.mk (Except.error ()) (fun _ => Except.error ()))).1).any
        isExportEvent = false :=
  run_transport_halts "b" "k" "l"
    (Site.mk (Except.error ()) (fun _ => Except.error ())) (Or.inl rfl)

theorem trace_fetch_pos (base kw : String) (js : List Journal) (n i p : Nat)
    (hi : (Event.fetch (initialUrl base kw) ::
        (List.range' 1 n).flatMap
          (fun r => [Event.fetch (pageUrl base kw r), Event.sleep 2]) ++
        [Event.saveCsv js, Event.visualize, Event.printTable js])[i]? =
      some (Event.fetch (pageUrl base kw p))) :
    ∃ m, i = m + 1 ∧ m < 2 * n ∧ m % 2 = 0 := by
  have hlen : ((List.range' 1 n).flatMap
      (fun r => [Event.fetch (pageUrl base kw r), Event.sleep 2])).length =
      2 * n := flatMap_pair_length _ _ n 1
  rw [List.cons_append] at hi
  cases i with
  | zero =>
    rw [List.getElem?_cons_zero] at hi
    simp only [Option.some.injEq, Event.fetch.injEq] at hi
    exact absurd hi (initialUrl_ne_pageUrl base kw p)
  | succ m =>
    rw [List.getElem?_cons_succ] at hi
    refine ⟨m, rfl, ?_⟩
    by_cases hcase : m < 2 * n
    · rw [List.getElem?_append_left (by rw [hlen]; exact hcase),
        flatMap_pair_getElem? _ _ n 1 m hcase] at hi
      by_cases hpar : m % 2 = 0
      · exact ⟨hcase, hpar⟩
      · rw [if_neg hpar] at hi
        simp at hi
    · exfalso
      rw [List.getElem?_append_right (by rw [hlen]; omega), hlen] at hi
      rcases hd : m - 2 * n with _ | _ | _ | d <;> rw [hd] at hi <;> simp at hi

theorem trace_sleep_pos (base kw : String) (js : List Journal) (n m : Nat)
    (h1 : m < 2 * n) (h2 : m % 2 = 1) :
    (Event.fetch (initialUrl base kw) ::
        (List.range' 1 n).flatMap
          (fun r => [Event.fetch (pageUrl base kw r), Event.sleep 2]) ++
        [Event.saveCsv js, Event.visualize, Event.printTable js])[m + 1]? =
      some (Event.sleep 2) := by
  rw [List.cons_append, List.getElem?_cons_succ,
    List.getElem?_append_left (by rw [flatMap_pair_length]; exact h1),
    flatMap_pair_getElem? _ _ n 1 m h1, if_neg (by omega)]

/-- Claim C7: in every successful run the fixed `time.sleep(2)` delay is
performed exactly once per page iteration — the trace's sleep events are
exactly `totalPages` copies of `sleep 2` — and between the fetches of any
two consecutively numbered pages a pacing delay occurs. -/
theorem run_pacing (base kw log : String) (site : Site) (s0 : Soup)
    (total : Int) (js : List Journal)
    (h0 : site.initialPage = Except.ok s0)
    (h1 : get_pagination s0 = Except.ok total)
    (h2 : (runScraper base kw log site).2 = Except.ok js) :
    ((runScraper base kw log site).1).filter isSleepEvent =
      List.replicate total.toNat (Event.sleep 2) ∧
    pacedBetween base kw (runScraper base kw log site).1 := by
  obtain ⟨hjs, hevs⟩ := runScraper_ok_char base kw log site s0 total js h0 h1 h2
  constructor
  · rw [hevs]
    simp [List.filter_append, flatMap_pair_filter_sleep, isSleepEvent]
  · intro i j p q hi hj hq hij
    rw [hevs] at hi hj
    obtain ⟨mi, rfl, hmi, hmieven⟩ :=
      trace_fetch_pos base kw js total.toNat i p hi
    obtain ⟨mj, rfl, hmj, hmjeven⟩ :=
      trace_fetch_pos base kw js total.toNat _ q hj
    refine ⟨mi + 2, by omega, by omega, ?_⟩
    rw [hevs]
    have hs := trace_sleep_pos base kw js total.toNat (mi + 1)
      (by omega) (by omega)
    simpa using hs

/-- Claim C7, witness: a successful two-page run performs exactly two pacing
delays, and a delay separates the page-1 fetch from the page-2 fetch. -/
theorem run_pacing_witness :
    ((runScraper "b" "k" "l"
      (Site.mk (Except.ok (Soup.mk ["Page 1 of 2 | X"] [] [] []))
        (fun _ => Except.ok (Soup.mk [] [NameBlock.mk "R" []] [] [])))).1).filter
        isSleepEvent = List.replicate (2 : Int).toNat (Event.sleep 2) ∧
    pacedBetween "b" "k"
      (runScraper "b" "k" "l"
        (Site.mk (Except.ok (Soup.mk ["Page 1 of 2 | X"] [] [] []))
          (fun _ => Except.ok (Soup.mk [] [NameBlock.mk "R" []] [] [])))).1 :=
  run_pacing "b" "k" "l"
    (Site.mk (Except.ok (Soup.mk ["Page 1 of 2 | X"] [] [] []))
      (fun _ => Except.ok (Soup.mk [] [NameBlock.mk "R" []] [] [])))
    (Soup.mk ["Page 1 of 2 | X"] [] [] []) 2
    [Journal.mk "R" "" "" "", Journal.mk "R" "" "" ""]
    rfl (by decide) (by decide)

/-- Claim C8: the pipeline is deterministic in its tabular output — against
an unchanged site and keyword, runs started at different timestamps (which
enter only the directory, CSV and log file names) produce byte-identical
CSV content. -/
theorem pipeline_deterministic_content (base kw : String) (site : Site)
    (dirTs fileTs logTs dirTs' fileTs' logTs' : String) :
    (pipelineCsv base kw dirTs fileTs logTs site).map Prod.snd =
      (pipelineCsv base kw dirTs' fileTs' logTs' site).map Prod.snd := by
  have h := runScraper_log_toOption base kw (log_filename kw dirTs logTs)
    (log_filename kw dirTs' logTs') site
  unfold pipelineCsv
  cases hr : (runScraper base kw (log_filename kw dirTs logTs) site).2 with
  | ok js =>
    cases hr' : (runScraper base kw (log_filename kw dirTs' logTs') site).2 with
    | ok js' =>
      rw [hr, hr'] at h
      simp only [Except.toOption, Option.some.injEq] at h
      subst h
      simp
    | error e =>
      rw [hr, hr'] at h
      simp [Except.toOption] at h
  | error e =>
    cases hr' : (runScraper base kw (log_filename kw dirTs' logTs') site).2 with
    | ok js' =>
      rw [hr, hr'] at h
      simp [Except.toOption] at h
    | error e' => simp

theorem scrapeLoop_congr_site (base kw log : String) (site site' : Site)
    (h : site.pageAt = site'.pageAt) (ps : List Nat) :
    ∀ acc, scrapeLoop base kw log site ps acc =
      scrapeLoop base kw log site' ps acc := by
  induction ps with
  | nil => intro acc; rfl
  | cons p ps ih =>
    intro acc
    have hp : site.pageAt p = site'.pageAt p := by rw [h]
    cases hf : site'.pageAt p with
    | error e => simp only [scrapeLoop, hp, hf, fetch_page]
    | ok s =>
      cases he : extract_journal_data s with
      | error e => simp only [scrapeLoop, hp, hf, fetch_page, he]
      | ok js =>
        simp only [scrapeLoop, hp, hf, fetch_page, he]
        rw [ih (acc ++ js)]

/-- Claim C9: the initial discovery fetch of `{base}?q={kw}` contributes no
records: a successful run issues exactly `totalPages + 1` fetches, the trace
contains both the initial fetch and (when at least one page exists) a
second fetch of page 1 under the distinct URL `{base}?page=1&q={kw}`, and
replacing the initial page by any page reporting the same total leaves the
collection unchanged — the result is built only from the loop's fetches. -/
theorem run_initial_fetch_only_counts (base kw log : String) (site : Site)
    (s0 : Soup) (total : Int) (js : List Journal)
    (h0 : site.initialPage = Except.ok s0)
    (h1 : get_pagination s0 = Except.ok total)
    (h2 : (runScraper base kw log site).2 = Except.ok js) :
    (((runScraper base kw log site).1).filter isFetchEvent).length =
      total.toNat + 1 ∧
    Event.fetch (initialUrl base kw) ∈ (runScraper base kw log site).1 ∧
    (1 ≤ total →
      Event.fetch (pageUrl base kw 1) ∈ (runScraper base kw log site).1) ∧
    initialUrl base kw ≠ pageUrl base kw 1 ∧
    ∀ s0' : Soup, get_pagination s0' = Except.ok total →
      (runScraper base kw log (Site.mk (Except.ok s0') site.pageAt)).2 =
        Except.ok js := by
  obtain ⟨hjs, hevs⟩ := runScraper_ok_char base kw log site s0 total js h0 h1 h2
  refine ⟨?_, ?_, ?_, initialUrl_ne_pageUrl base kw 1, ?_⟩
  · rw [hevs]
    simp [List.filter_append, flatMap_pair_filter_fetch, isFetchEvent,
      Nat.add_comm]
  · rw [hevs]; simp
  · intro htot
    rw [hevs]
    have h1mem : (1 : Nat) ∈ List.range' 1 total.toNat := by
      rw [List.mem_range'_1]
      omega
    rw [List.cons_append]
    refine List.mem_cons.mpr (Or.inr (List.mem_append.mpr (Or.inl ?_)))
    exact List.mem_flatMap.mpr ⟨1, h1mem, by simp⟩
  · intro s0' hs0'
    have hsl := scrapeLoop_congr_site base kw log
      (Site.mk (Except.ok s0') site.pageAt) site rfl
      (List.range' 1 total.toNat) []
    cases hrec : scrapeLoop base kw log site (List.range' 1 total.toNat) [] with
    | mk evs res =>
      rw [hrec] at hsl
      simp only [runScraper, fetch_page, h0, h1, hrec] at h2
      simp only [runScraper, fetch_page, hs0', hsl]
      cases res with
      | error e => simp at h2
      | ok js' => simpa using h2

/-- Claim C9, witness: on a one-page site the successful run issues two
fetches (discovery plus page 1), fetches page 1 under its own URL, and its
collection does not change when the discovery page is replaced by another
page reporting the same total. -/
theorem run_initial_fetch_only_counts_witness :
    (((runScraper "b" "k" "l"
      (Site.mk (Except.ok (Soup.mk ["Page 1 of 1 | X"] [] [] []))
        (fun _ => Except.ok (Soup.mk [] [NameBlock.mk "R" []] [] [])))).1).filter
        isFetchEvent).length = (1 : Int).toNat + 1 ∧
    Event.fetch (initialUrl "b" "k") ∈
      (runScraper "b" "k" "l"
        (Site.mk (Except.ok (Soup.mk ["Page 1 of 1 | X"] [] [] []))
          (fun _ => Except.ok (Soup.mk [] [NameBlock.mk "R" []] [] [])))).1 ∧
    ((1 : Int) ≤ 1 →
      Event.fetch (pageUrl "b" "k" 1) ∈
        (runScraper "b" "k" "l"
          (Site.mk (Except.ok (Soup.mk ["Page 1 of 1 | X"] [] [] []))
            (fun _ => Except.ok (Soup.mk [] [NameBlock.mk "R" []] [] [])))).1) ∧
    initialUrl "b" "k" ≠ pageUrl "b" "k" 1 ∧
    ∀ s0' : Soup, get_pagination s0' = Except.ok 1 →
      (runScraper "b" "k" "l" (Site.mk (Except.ok s0')
        (fun _ => Except.ok (Soup.mk [] [NameBlock.mk "R" []] [] [])))).2 =
        Except.ok [Journal.mk "R" "" "" ""] :=
  run_initial_fetch_only_counts "b" "k" "l"
    (Site.mk (Except.ok (Soup.mk ["Page 1 of 1 | X"] [] [] []))
      (fun _ => Except.ok (Soup.mk [] [NameBlock.mk "R" []] [] [])))
    (Soup.mk ["Page 1 of 1 | X"] [] [] []) 1 [Journal.mk "R" "" "" ""]
    rfl (by decide) (by decide)

end SintaScraper
